import Mathlib

/-!
Verification of `local_daypo.py` (LocalDaypoTest): a shallow embedding of the
bank decoder and session engine (model + controller + the submit logic of the
view), together with theorems settling the frozen claims about the program.

Conventions of the embedding:
* Python lists of ints become `List Nat`; Python `None`-able values become
  `Option`; Python exceptions escaping a function become `Except.error`.
* Python string helpers used by the source are re-implemented over `String.data`
  (`pyStrip` models `str.strip()`, `pySplit` models `str.split()`,
  `pyInt` models `int()` on the digit-only strings the bank format produces,
  `chunk2` models `textwrap.wrap(s, 2)` on those same whitespace-free strings).
* `sorted` on Python ints is modelled by insertion sort with `≤`, and Python's
  stable `sort`/`sorted` on pairs by insertion sort with the matching relation.
-/

namespace LocalDaypo

/-- Characters of a string, as produced by iterating a Python `str`. -/
def strChars (s : String) : List Char := s.data

/-- Models Python `str.strip()`: drop whitespace from both ends. -/
def pyStrip (s : String) : String :=
  String.mk (((s.data.dropWhile Char.isWhitespace).reverse.dropWhile Char.isWhitespace).reverse)

/-- Auxiliary splitter for `pySplit`, accumulating the current token reversed. -/
def splitWsAux : List Char → List Char → List String
  | [], cur => if cur = [] then [] else [String.mk cur.reverse]
  | c :: cs, cur =>
      if c.isWhitespace then
        (if cur = [] then splitWsAux cs [] else String.mk cur.reverse :: splitWsAux cs [])
      else splitWsAux cs (c :: cur)

/-- Models Python `str.split()` with no argument: split on whitespace runs,
discarding empty pieces. -/
def pySplit (s : String) : List String := splitWsAux s.data []

/-- Models Python `int(s)` on the digit-only strings produced by the bank
format (Python raises on other inputs; those never reach `int` in the source
paths modelled here). -/
def pyIntAux : List Char → Nat → Nat
  | [], acc => acc
  | c :: cs, acc => pyIntAux cs (acc * 10 + (c.toNat - 48))

/-- Models Python `int(s)` for digit strings, e.g. `pyInt "02" = 2`. -/
def pyInt (s : String) : Nat := pyIntAux s.data 0

/-- Models `textwrap.wrap(s, 2)` on the whitespace-free answer-code strings the
bank format produces: partition into fixed-width 2-character groups (a trailing
odd character forms a 1-character group). -/
def chunk2 : List Char → List String
  | [] => []
  | [a] => [String.mk [a]]
  | a :: b :: rest => String.mk [a, b] :: chunk2 rest

/-- `Question` (source lines 11-22): one evaluable item together with its
mutable answer state. `image_data` abstracts the decoded image bytes as the
raw base64 payload string; no claim depends on the byte contents. -/
structure Question where
  text : String
  type : String
  options : List String
  correct_indices : List Nat
  image_data : Option String
  user_answer_indices : List Nat
  user_input : List Nat
  is_answered : Bool
  is_correct : Option Bool
deriving DecidableEq, Repr

/-- `Question.__init__` (source lines 13-22): a freshly constructed question
carries the decoded fields and the default (unanswered) answer state. -/
def mkQuestion (q_text : String) (q_type : String) (options : List String)
    (correct_indices : List Nat) (image_data : Option String) : Question :=
  { text := q_text, type := q_type, options := options,
    correct_indices := correct_indices, image_data := image_data,
    user_answer_indices := [], user_input := [], is_answered := false,
    is_correct := none }

/-- The dictionary written by `Question.to_dict` (source lines 24-31). -/
structure SavedQ where
  text : String
  user_answer_indices : List Nat
  user_input : List Nat
  is_answered : Bool
  is_correct : Option Bool
deriving DecidableEq, Repr

/-- `Question.to_dict` (source lines 24-31). -/
def to_dict (q : Question) : SavedQ :=
  { text := q.text, user_answer_indices := q.user_answer_indices,
    user_input := q.user_input, is_answered := q.is_answered,
    is_correct := q.is_correct }

/-- `Question.from_dict` (source lines 33-37): restore the four answer-state
fields from a saved dictionary, leaving the decoded fields untouched. -/
def from_dict (q : Question) (d : SavedQ) : Question :=
  { q with user_answer_indices := d.user_answer_indices,
           user_input := d.user_input,
           is_answered := d.is_answered,
           is_correct := d.is_correct }

/-- `Test` (source lines 39-44): the question sequence, cursor and title.
The cursor is an `Int` because the resume path writes an arbitrary JSON
integer to it. -/
structure Test where
  questions : List Question
  current_question_index : Int
  title : String
deriving DecidableEq, Repr

/-- The progress dictionary written by `save_progress` (source lines 166-169)
and read by `check_and_load_progress`. -/
structure Progress where
  current_question_index : Int
  questions : List SavedQ
deriving DecidableEq, Repr

/-- `TestController.save_progress` (source lines 164-171): snapshot the cursor
and every question's `to_dict`. -/
def save_progress (t : Test) : Progress :=
  { current_question_index := t.current_question_index,
    questions := t.questions.map to_dict }

/-- Lookup in the Python dict comprehension
`{q['text']: q for q in progress_data['questions']}` (source line 183): a dict
built from a list keeps, for each key, the value of the LAST entry with that
key. -/
def dictGetLast (l : List SavedQ) (t : String) : Option SavedQ :=
  (l.filter (fun d => d.text == t)).getLast?

/-- The merge performed by `TestController.check_and_load_progress` after the
user confirms resuming (source lines 183-187): each live question whose text
occurs in the snapshot map is overwritten via `from_dict`; the cursor is set
verbatim to the stored `current_question_index` with no bounds check. -/
def applyProgress (t : Test) (p : Progress) : Test :=
  { t with
    questions := t.questions.map (fun q =>
      match dictGetLast p.questions q.text with
      | some d => from_dict q d
      | none => q),
    current_question_index := p.current_question_index }

/-- `TestController.get_current_question` (source lines 191-194): return the
question at the cursor, or `none` when the cursor is out of `[0, len)`. -/
def get_current_question (t : Test) : Option Question :=
  if 0 ≤ t.current_question_index ∧ t.current_question_index < (t.questions.length : Int) then
    t.questions.get? t.current_question_index.toNat
  else none

/-- Python `sorted` on a list of ints (source line 206). -/
def sortNat (l : List Nat) : List Nat := List.insertionSort (· ≤ ·) l

/-- `TestController.evaluate_answer` (source lines 196-208) acting on the
current question: store the normalized and raw answers, mark answered, and set
correctness — exact list equality for ordering questions, sorted-list
(i.e. multiset) equality otherwise. There is no guard on `is_answered`. -/
def evaluate_answer (q : Question) (user_answer : List Nat)
    (user_raw_input : Option (List Nat)) : Question :=
  { q with
    user_answer_indices := user_answer,
    user_input := user_raw_input.getD user_answer,
    is_answered := true,
    is_correct := some (if q.type = "ordering" then
        decide (user_answer = q.correct_indices)
      else
        decide (sortNat user_answer = sortNat q.correct_indices)) }

/-- Decode of a type-code `"1"` answer string (source line 123): the option
indices whose character equals the marker `'2'`. -/
def choiceCorrect (answer_code : String) : List Nat :=
  ((answer_code.data.enum.filter (fun p => p.2 == '2')).map (fun p => p.1))

/-- The type-code `"1"` branch of the question loop (source lines 122-124
and 143-144): build the question, classifying it as `"single"` exactly when
one index is flagged, and drop it when the options or the flagged set are
empty. -/
def choiceQuestion (q_text : String) (options : List String)
    (answer_code : String) (image : Option String) : Option Question :=
  let correct_indices := choiceCorrect answer_code
  let q_type := if correct_indices.length = 1 then "single" else "multiple"
  if options ≠ [] ∧ correct_indices ≠ [] then
    some (mkQuestion q_text q_type options correct_indices image)
  else none

/-- Option re-splitting for ordering questions (source lines 128-129): a single
option containing a space is split on whitespace into individual items. -/
def normalizeOrderingOptions (options : List String) : List String :=
  if options.length = 1 ∧ (options.headD "").contains ' ' = true then
    pySplit (options.headD "")
  else options

/-- Position decode for ordering questions (source lines 132-133): 2-character
groups, each parsed as a number except the literal `"00"` which becomes the
option count. -/
def orderingPositions (num_options : Nat) (answer_code : String) : List Nat :=
  (chunk2 answer_code.data).map (fun p => if p = "00" then num_options else pyInt p)

/-- Lexicographic comparison of `(position, original index)` pairs, as used by
Python's tuple `sort` on source line 140. -/
def pairLe (a b : Nat × Nat) : Prop := a.1 < b.1 ∨ (a.1 = b.1 ∧ a.2 ≤ b.2)

instance : DecidableRel pairLe := fun a b => by unfold pairLe; exact inferInstance

instance : IsTrans (Nat × Nat) pairLe where
  trans a b c hab hbc := by
    rcases hab with h1 | ⟨h1, h1'⟩ <;> rcases hbc with h2 | ⟨h2, h2'⟩
    · exact Or.inl (h1.trans h2)
    · exact Or.inl (h2 ▸ h1)
    · exact Or.inl (h1 ▸ h2)
    · exact Or.inr ⟨h1.trans h2, h1'.trans h2'⟩

instance : IsTotal (Nat × Nat) pairLe where
  total a b := by
    rcases Nat.lt_trichotomy a.1 b.1 with h | h | h
    · exact Or.inl (Or.inl h)
    · rcases Nat.le_total a.2 b.2 with h' | h'
      · exact Or.inl (Or.inr ⟨h, h'⟩)
      · exact Or.inr (Or.inr ⟨h.symm, h'⟩)
    · exact Or.inr (Or.inl h)

instance : IsAntisymm (Nat × Nat) pairLe where
  antisymm a b hab hba := by
    rcases hab with h1 | ⟨h1, h1'⟩ <;> rcases hba with h2 | ⟨h2, h2'⟩
    · exact absurd (h1.trans h2) (Nat.lt_irrefl _)
    · exact absurd h1 (h2 ▸ Nat.lt_irrefl _)
    · exact absurd h2 (h1 ▸ Nat.lt_irrefl _)
    · exact Prod.ext h1 (Nat.le_antisymm h1' h2')

/-- The permutation build for ordering questions (source lines 135-141): pair
each in-range index with its decoded position, sort the `(position, index)`
pairs as Python sorts tuples (lexicographically), and keep the original
indices. -/
def orderingCorrect (num_options : Nat) (positions : List Nat) : List Nat :=
  (List.insertionSort pairLe
      ((positions.enum.filter (fun p => decide (p.1 < num_options))).map
        (fun p => (p.2, p.1)))).map (fun p => p.2)

/-- The type-code `"6"` branch of the question loop (source lines 126-141
and 143-144): normalize the options, decode the permutation, and drop the
question when the options or the permutation are empty. -/
def orderingQuestion (q_text : String) (options : List String)
    (answer_code : String) (image : Option String) : Option Question :=
  let opts := normalizeOrderingOptions options
  let correct_indices := orderingCorrect opts.length (orderingPositions opts.length answer_code)
  if opts ≠ [] ∧ correct_indices ≠ [] then
    some (mkQuestion q_text "ordering" opts correct_indices image)
  else none

/-- An `xml.etree.ElementTree` element: tag, attributes, text, tail, children.
This is the tree `ET.fromstring` produces from the bank file. -/
inductive XElem : Type where
  | mk (tag : String) (attrs : List (String × String)) (text : Option String)
       (tail : Option String) (children : List XElem)

/-- The `.tag` attribute of an element. -/
def XElem.tag : XElem → String
  | .mk t _ _ _ _ => t

/-- The attribute list of an element. -/
def XElem.attrs : XElem → List (String × String)
  | .mk _ a _ _ _ => a

/-- The `.text` attribute of an element. -/
def XElem.text : XElem → Option String
  | .mk _ _ tx _ _ => tx

/-- The `.tail` attribute of an element. -/
def XElem.tail : XElem → Option String
  | .mk _ _ _ tl _ => tl

/-- The child list of an element. -/
def XElem.children : XElem → List XElem
  | .mk _ _ _ _ cs => cs

/-- `Element.get(key)`: look up an attribute. -/
def getAttr (e : XElem) (k : String) : Option String :=
  (e.attrs.find? (fun a => a.1 == k)).map (fun a => a.2)

/-- `element.find(tag)` for a plain child-tag path: first child with the tag. -/
def findChildTag (e : XElem) (t : String) : Option XElem :=
  e.children.find? (fun c => c.tag == t)

/-- `element.findall(tag)` for a plain child-tag path. -/
def findAllChildTag (e : XElem) (t : String) : List XElem :=
  e.children.filter (fun c => c.tag == t)

mutual
/-- All proper descendants of an element in document (pre-)order, as iterated
by an ElementTree `.//` path step. -/
def descE : XElem → List XElem
  | .mk _ _ _ _ cs => descL cs
/-- Descendant enumeration over a child list. -/
def descL : List XElem → List XElem
  | [] => []
  | c :: cs => c :: (descE c ++ descL cs)
end

mutual
/-- `"".join(element.itertext())`: the element's text followed by each child's
`itertext` and tail, in document order. -/
def itertextE : XElem → String
  | .mk _ _ tx _ cs => (tx.getD "") ++ itertextL cs
/-- `itertext` concatenation over a child list, including tails. -/
def itertextL : List XElem → String
  | [] => ""
  | c :: cs => itertextE c ++ (c.tail.getD "") ++ itertextL cs
end

/-- `el.tag.split('}', 1)[1]` guarded by `'}' in el.tag` (source lines 75-76):
drop everything up to and including the first `'}'`. -/
def dropBrace : List Char → List Char
  | [] => []
  | c :: cs => if c = '}' then cs else dropBrace cs

/-- Strip a namespace qualifier from one tag name (source lines 75-76). -/
def stripTag (t : String) : String :=
  if t.data.contains '}' then String.mk (dropBrace t.data) else t

mutual
/-- The tag rewriting the `iterparse` loop performs on every element of the
tree it builds (source lines 73-76). In the source that rewritten tree is
discarded: line 77 re-parses the original string into `root`. -/
def stripNsE : XElem → XElem
  | .mk t a tx tl cs => .mk (stripTag t) a tx tl (stripNsL cs)
/-- Namespace stripping over a child list. -/
def stripNsL : List XElem → List XElem
  | [] => []
  | c :: cs => stripNsE c :: stripNsL cs
end

/-- `root.find('.//p/t')` (source line 79): the first `t` child of a `p`
descendant, in the order ElementTree's path iterator produces matches. -/
def findPT (root : XElem) : Option XElem :=
  (((descE root).filter (fun e => e.tag == "p")).flatMap
    (fun p => p.children.filter (fun c => c.tag == "t"))).head?

/-- Dict lookup for the image table (`images_data.get`), with later entries
overriding earlier ones as in a Python dict. -/
def dictGetStr (l : List (String × String)) (k : String) : Option String :=
  ((l.filter (fun a => a.1 == k)).getLast?).map (fun a => a.2)

/-- Everything after the first `','`, or `none` when there is no comma —
`s.split(',', 1)` raising `ValueError` in the source (source line 89). -/
def afterComma : List Char → Option (List Char)
  | [] => none
  | c :: cs => if c = ',' then some cs else afterComma cs

/-- The image-table build (source lines 81-93): children of the `i` container
that carry a non-empty `p` key and a non-empty `<metadata>,<payload>` text
contribute `key ↦ payload`; entries without a comma are skipped. The base64
decode of the payload is abstracted as the payload itself (no claim concerns
the image bytes; a `binascii` failure is likewise a skip in the source). -/
def decodeImages (root : XElem) : List (String × String) :=
  match findChildTag root "i" with
  | none => []
  | some cont =>
      (findAllChildTag cont "i").filterMap (fun n =>
        match getAttr n "p", n.text with
        | some k, some s =>
            if k ≠ "" ∧ s ≠ "" then
              (afterComma s.data).map (fun payload => (k, String.mk payload))
            else none
        | _, _ => none)

/-- Image resolution for one question node (source lines 112-114). -/
def questionImage (images : List (String × String)) (node : XElem) : Option String :=
  match findChildTag node "b" with
  | none => none
  | some b =>
      match getAttr b "p" with
      | none => none
      | some r => if r = "" then none else dictGetStr images r

/-- `question_node.findall('.//r/o')` (source line 116): the `o` children of
`r` descendants, in document order. -/
def findRO (node : XElem) : List XElem :=
  ((descE node).filter (fun e => e.tag == "r")).flatMap
    (fun r => r.children.filter (fun c => c.tag == "o"))

/-- One iteration of the question loop (source lines 100-144): skip nodes with
no type tag, no type text or no prompt node; read prompt, image, options and
answer code; an absent answer node makes line 117 raise `AttributeError`, and
an answer node with no text makes the `"1"`/`"6"` branches raise `TypeError`;
otherwise dispatch on the type code, unrecognized codes producing no
question. -/
def decodeNode (images : List (String × String)) (node : XElem) :
    Except String (Option Question) :=
  match findChildTag node "t" with
  | none => .ok none
  | some type_tag =>
      match type_tag.text with
      | none => .ok none
      | some q_type_code =>
          match findChildTag node "p" with
          | none => .ok none
          | some p_tag =>
              let q_text := pyStrip (itertextE p_tag)
              let qimg := questionImage images node
              let options := (findRO node).map (fun o => pyStrip (o.text.getD ""))
              match findChildTag node "c" with
              | none => .error "AttributeError"
              | some c_tag =>
                  if q_type_code = "1" then
                    match c_tag.text with
                    | none => .error "TypeError"
                    | some ac => .ok (choiceQuestion q_text options ac qimg)
                  else if q_type_code = "6" then
                    match c_tag.text with
                    | none => .error "TypeError"
                    | some ac => .ok (orderingQuestion q_text options ac qimg)
                  else .ok none

/-- The question loop over the container's children (source lines 100-144):
surviving questions are appended in order; a raised error aborts the load. -/
def decodeNodes (images : List (String × String)) :
    List XElem → Except String (List Question)
  | [] => .ok []
  | n :: ns => do
      let q? ← decodeNode images n
      let rest ← decodeNodes images ns
      match q? with
      | some q => .ok (q :: rest)
      | none => .ok rest

/-- `TestController.load_new_test_from_file` from the parsed tree onward
(source lines 77-158). Crucially, the namespace-stripping `iterparse` loop of
lines 73-76 rewrites a tree that is immediately discarded: line 77 re-parses
the original string, so every lookup below runs on the UNSTRIPPED tags. An
absent `.//p/t` node makes line 79 raise `AttributeError` (not caught by the
`except` clause of line 160); a missing `c` container and an empty question
list are the handled fatal errors of lines 97 and 147. -/
def loadFromTree (root : XElem) : Except String Test :=
  match findPT root with
  | none => .error "AttributeError"
  | some t_el =>
      let title := match t_el.text with
        | some s => if s = "" then "Practice Test" else s
        | none => "Practice Test"
      let images := decodeImages root
      match findChildTag root "c" with
      | none => .error "Invalid test format: No main question container (<c>) found."
      | some qc => do
          let qs ← decodeNodes images (findAllChildTag qc "c")
          if qs = [] then .error "This XML file does not contain any valid questions."
          else .ok { questions := qs, current_question_index := 0, title := title }

/-- Comparison of `(index, value)` pairs by value only: the key function
`lambda x: x[1]` of Python's stable `sorted` on source line 491. -/
def valLe (a b : Nat × Nat) : Prop := a.2 ≤ b.2

instance : DecidableRel valLe := fun a b => by unfold valLe; exact inferInstance

/-- The ordering branch of `TestFrame.on_submit` (source lines 486-493):
collect the spin-control values (one per option), reject the submission with a
message box — leaving the question untouched — unless the number of distinct
values equals the option count, otherwise sort the `(index, value)` pairs
stably by value, take the indices, and evaluate with the raw values kept. -/
def onSubmitOrdering (q : Question) (user_input_values : List Nat) : Question :=
  if user_input_values.dedup.length ≠ q.options.length then q
  else
    let user_indices := (List.insertionSort valLe user_input_values.enum).map (fun p => p.1)
    evaluate_answer q user_indices (some user_input_values)

/-- The choice branch of `TestFrame.on_submit` (source lines 495-496): the
selected indices are evaluated directly, with no further guard. -/
def onSubmitChoice (q : Question) (selected_indices : List Nat) : Question :=
  evaluate_answer q selected_indices none

/-- `update_feedback_and_nav` line 471: the submit button is enabled exactly
when the current question is unanswered. -/
def submitEnabled (q : Question) : Bool := !q.is_answered

/-- A submit event as deliverable through the UI: a wx button click reaches
`on_submit` only while the button is enabled, and `update_feedback_and_nav`
(source line 471) disables it the moment the question is answered. `on_submit`
and `evaluate_answer` themselves contain no answered-guard. -/
def uiSubmit (q : Question) (user_answer : List Nat)
    (user_raw_input : Option (List Nat)) : Question :=
  if submitEnabled q then evaluate_answer q user_answer user_raw_input else q

/-- The per-question reset of `TestFrame.retry_incorrect` (source line 534). -/
def retryReset (q : Question) : Question :=
  { q with user_answer_indices := [], user_input := [],
           is_answered := false, is_correct := none }

/-- A question as a fresh decode of the same bank produces it: identical
decoded fields, constructor-default answer state (source lines 13-22, 144). -/
def freshQuestion (q : Question) : Question :=
  mkQuestion q.text q.type q.options q.correct_indices q.image_data

/-- A freshly decoded instance of the same bank: same decoded questions in the
same order with default answer state, cursor `0` (source lines 41-44, 158). -/
def freshTest (t : Test) : Test :=
  { questions := t.questions.map freshQuestion,
    current_question_index := 0, title := t.title }

/-- A leaf element with only a tag and text. -/
def leafEl (tag : String) (txt : String) : XElem := .mk tag [] (some txt) none []

/-- A namespace-qualified bank: title `p/t`, one `c` container holding one
type-`"1"` question with two options and answer code `"21"`, every tag
carrying the `{u}` namespace qualifier ElementTree produces for
`xmlns="u"`. -/
def exTreeNs : XElem :=
  .mk "{u}test" [] none none
    [ .mk "{u}p" [] none none [leafEl "{u}t" "My Title"],
      .mk "{u}c" [] none none
        [ .mk "{u}c" [] none none
            [ leafEl "{u}t" "1",
              leafEl "{u}p" "Q1",
              .mk "{u}r" [] none none [leafEl "{u}o" "Paris", leafEl "{u}o" "London"],
              leafEl "{u}c" "21" ] ] ]

/-- A well-formed bank with a valid question but NO title element anywhere:
no `p` node has a `t` child. -/
def exTreeNoTitle : XElem :=
  .mk "test" [] none none
    [ .mk "c" [] none none
        [ .mk "c" [] none none
            [ leafEl "t" "1",
              leafEl "p" "Q1",
              .mk "r" [] none none [leafEl "o" "Paris", leafEl "o" "London"],
              leafEl "c" "21" ] ] ]

/-- The same bank with a title element present but carrying empty text. -/
def exTreeEmptyTitle : XElem :=
  .mk "test" [] none none
    [ .mk "p" [] none none [leafEl "t" ""],
      .mk "c" [] none none
        [ .mk "c" [] none none
            [ leafEl "t" "1",
              leafEl "p" "Q1",
              .mk "r" [] none none [leafEl "o" "Paris", leafEl "o" "London"],
              leafEl "c" "21" ] ] ]

/-! ## Helper lemmas -/

/-- Python `sorted` returns the same list on any two permutations of the same
input: insertion sort with `≤` is a sorted permutation, and sorted
permutations of equal multisets coincide. -/
theorem sortNat_perm_congr {l l' : List Nat} (h : l.Perm l') : sortNat l = sortNat l' :=
  List.eq_of_perm_of_sorted
    ((List.perm_insertionSort _ l).trans (h.trans (List.perm_insertionSort _ l').symm))
    (List.sorted_insertionSort _ l) (List.sorted_insertionSort _ l')

/-- The size of the Python set of a list equals the list's length exactly when
the list has no duplicates. -/
theorem dedup_length_eq_iff {l : List Nat} : l.dedup.length = l.length ↔ l.Nodup := by
  constructor
  · intro h
    have hd := (List.dedup_sublist l).eq_of_length h
    exact hd ▸ List.nodup_dedup l
  · intro h
    rw [List.dedup_eq_self.mpr h]

/-- Membership in the flagged set of a type-`"1"` answer string: index `i` is
flagged exactly when character `i` of the string is `'2'`. -/
theorem mem_choiceCorrect (ac : String) (i : Nat) :
    i ∈ choiceCorrect ac ↔ ac.data[i]? = some '2' := by
  unfold choiceCorrect
  simp only [List.mem_map, List.mem_filter, beq_iff_eq]
  constructor
  · rintro ⟨⟨j, c⟩, ⟨hmem, hc⟩, rfl⟩
    subst hc
    exact List.mk_mem_enum_iff_getElem?.mp hmem
  · intro h
    exact ⟨(i, '2'), ⟨List.mk_mem_enum_iff_getElem?.mpr h, rfl⟩, rfl⟩

/-! ## Claims -/

/-- Claim C3: for every Single or Multiple question and every submitted index
sequence, evaluation yields the same correctness verdict on any permutation of
the submission — correctness is multiset (set) equality of the submitted
indices against the correct ones, insensitive to submission order. -/
theorem claim_c3_choice_eval_order_insensitive (q : Question)
    (h : q.type = "single" ∨ q.type = "multiple")
    (ans ans' : List Nat) (hperm : ans.Perm ans')
    (raw raw' : Option (List Nat)) :
    (evaluate_answer q ans raw).is_correct = (evaluate_answer q ans' raw').is_correct := by
  have hne : ¬ q.type = "ordering" := by rcases h with h | h <;> rw [h] <;> decide
  show some (if q.type = "ordering" then decide (ans = q.correct_indices)
        else decide (sortNat ans = sortNat q.correct_indices))
      = some (if q.type = "ordering" then decide (ans' = q.correct_indices)
        else decide (sortNat ans' = sortNat q.correct_indices))
  rw [if_neg hne, if_neg hne, sortNat_perm_congr hperm]

/-- Witness for C3 at a concrete Multiple-style submission: `[1, 0]` and
`[0, 1]` receive the same verdict. -/
theorem claim_c3_witness :
    (evaluate_answer (mkQuestion "c" "single" ["a", "b", "c"] [0, 1] none) [1, 0] none).is_correct
      = (evaluate_answer (mkQuestion "c" "single" ["a", "b", "c"] [0, 1] none) [0, 1] none).is_correct :=
  claim_c3_choice_eval_order_insensitive _ (Or.inl rfl) _ _ (by decide) none none

/-- Claim C4: for every Ordering question, evaluation compares the submitted
index sequence for exact order-sensitive equality with the correct
permutation; a submission with the right index set in a different sequence is
incorrect. -/
theorem claim_c4_ordering_eval_order_sensitive (q : Question)
    (h : q.type = "ordering") (ans : List Nat)
    (hperm : ans.Perm q.correct_indices) (hne : ans ≠ q.correct_indices)
    (raw : Option (List Nat)) :
    (evaluate_answer q ans raw).is_correct = some false := by
  show some (if q.type = "ordering" then decide (ans = q.correct_indices)
        else decide (sortNat ans = sortNat q.correct_indices)) = some false
  rw [if_pos h, decide_eq_false hne]

/-- Witness for C4: submitting `[1, 0]` against correct permutation `[0, 1]`
(same index set, different order) is judged incorrect. -/
theorem claim_c4_witness :
    (evaluate_answer (mkQuestion "o" "ordering" ["a", "b"] [0, 1] none) [1, 0] none).is_correct
      = some false :=
  claim_c4_ordering_eval_order_sensitive _ rfl _ (by decide) (by decide) none

/-- A concrete already-answered question, used by several counterexamples. -/
def qAnswered : Question :=
  { text := "Q", type := "single", options := ["a", "b"], correct_indices := [0],
    image_data := none, user_answer_indices := [0], user_input := [0],
    is_answered := true, is_correct := some true }

/-- Claim C7 counterexample: the submit path itself (`on_submit`'s choice
branch calling `evaluate_answer`, neither of which checks `is_answered`)
invoked on an already-answered question DOES mutate its AnswerState and
re-runs evaluation — here flipping a correct verdict to incorrect. -/
theorem claim_c7_counterexample :
    qAnswered.is_answered = true
    ∧ onSubmitChoice qAnswered [1] ≠ qAnswered
    ∧ (onSubmitChoice qAnswered [1]).is_correct = some false := by
  exact ⟨rfl, by decide, by decide⟩

/-- Claim C7 (amended): resubmission is prevented only by the view layer —
`update_feedback_and_nav` disables the submit button while the question is
answered, so no click reaches `on_submit`; under that guard a submit event on
an answered question leaves the state untouched, an unanswered question is
evaluated normally, and the explicit retry reset returns a question to the
unanswered state. -/
theorem claim_c7_amended_submit_guard (q : Question) (ans : List Nat)
    (raw : Option (List Nat)) :
    (q.is_answered = true → uiSubmit q ans raw = q)
    ∧ (q.is_answered = false → uiSubmit q ans raw = evaluate_answer q ans raw)
    ∧ (retryReset q).is_answered = false := by
  refine ⟨fun h => ?_, fun h => ?_, rfl⟩ <;> simp [uiSubmit, submitEnabled, h]

/-- Witness for the amended C7: a view-guarded submit on the concrete answered
question is a no-op. -/
theorem claim_c7_witness :
    uiSubmit qAnswered [1] none = qAnswered :=
  (claim_c7_amended_submit_guard qAnswered [1] none).1 rfl

/-- Claim C8: a duplicate-rank submission for an Ordering question is rejected
without mutating the question, and a subsequent pairwise-distinct submission
still succeeds and is evaluated normally (marked answered, indices derived by
the stable sort of `(index, rank)` pairs by rank). -/
theorem claim_c8_duplicate_ranks_rejected (q : Question) (vals vals' : List Nat)
    (hlen : vals.length = q.options.length) (hdup : ¬ vals.Nodup)
    (hlen' : vals'.length = q.options.length) (hnd : vals'.Nodup) :
    onSubmitOrdering q vals = q
    ∧ onSubmitOrdering (onSubmitOrdering q vals) vals'
        = evaluate_answer q ((List.insertionSort valLe vals'.enum).map (fun p => p.1))
            (some vals')
    ∧ (onSubmitOrdering (onSubmitOrdering q vals) vals').is_answered = true := by
  have h1 : onSubmitOrdering q vals = q := by
    unfold onSubmitOrdering
    rw [if_pos]
    intro hc
    exact hdup (dedup_length_eq_iff.mp (hlen ▸ hc))
  have heq : vals'.dedup.length = q.options.length := by
    rw [List.dedup_eq_self.mpr hnd, hlen']
  have h2 : onSubmitOrdering q vals'
      = evaluate_answer q ((List.insertionSort valLe vals'.enum).map (fun p => p.1))
          (some vals') := by
    unfold onSubmitOrdering
    rw [if_neg (fun hc => hc heq)]
  refine ⟨h1, ?_, ?_⟩
  · rw [h1]; exact h2
  · rw [h1, h2]; rfl

/-- Witness for C8: ranks `[1, 1]` are rejected leaving the question fresh;
the follow-up ranks `[2, 1]` are accepted and evaluated. -/
theorem claim_c8_witness :
    onSubmitOrdering (mkQuestion "o" "ordering" ["a", "b"] [1, 0] none) [1, 1]
        = mkQuestion "o" "ordering" ["a", "b"] [1, 0] none
    ∧ onSubmitOrdering
          (onSubmitOrdering (mkQuestion "o" "ordering" ["a", "b"] [1, 0] none) [1, 1]) [2, 1]
        = evaluate_answer (mkQuestion "o" "ordering" ["a", "b"] [1, 0] none)
            ((List.insertionSort valLe ([2, 1] : List Nat).enum).map (fun p => p.1))
            (some [2, 1])
    ∧ (onSubmitOrdering
          (onSubmitOrdering (mkQuestion "o" "ordering" ["a", "b"] [1, 0] none) [1, 1])
          [2, 1]).is_answered = true :=
  claim_c8_duplicate_ranks_rejected _ _ _ (by decide) (by decide) (by decide) (by decide)

/-- Claim C10: resume restores the persisted cursor verbatim with no bounds
check against the freshly decoded question count; whenever the cursor lies
outside `[0, len)`, `get_current_question` range-checks and returns `none`
instead of crashing — exhibited concretely by resuming cursor `9` onto a
one-question test. -/
theorem claim_c10_resume_cursor_unchecked :
    (∀ (t : Test) (p : Progress),
        (applyProgress t p).current_question_index = p.current_question_index)
    ∧ (∀ t : Test,
        ¬ (0 ≤ t.current_question_index
            ∧ t.current_question_index < (t.questions.length : Int)) →
          get_current_question t = none)
    ∧ (applyProgress
          { questions := [qAnswered], current_question_index := 0, title := "T" }
          { current_question_index := 9, questions := [] }).current_question_index = 9
    ∧ get_current_question (applyProgress
          { questions := [qAnswered], current_question_index := 0, title := "T" }
          { current_question_index := 9, questions := [] }) = none := by
  refine ⟨fun t p => rfl, fun t h => ?_, by decide, by decide⟩
  unfold get_current_question
  rw [if_neg h]

/-- Witness for C10: a cursor of `9` on a one-question test yields no current
question. -/
theorem claim_c10_witness :
    get_current_question
        { questions := [qAnswered], current_question_index := 9, title := "T" } = none :=
  claim_c10_resume_cursor_unchecked.2.1 _ (by decide)

/-- Claim C2: for a type-code `"1"` node, option index `i` is flagged correct
iff character `i` of the answer string is `'2'`; one flagged index makes the
kind `"single"` and more than one makes it `"multiple"`; zero flagged indices
or an empty option list drop the question, and a dropped (`none`) node never
contributes to the decoded question list; concretely,
`["Paris","London","Rome"]` with `"211"` decodes to a single-choice question
with correct set `[0]`. -/
theorem claim_c2_choice_decode :
    (∀ (text : String) (opts : List String) (ac : String) (img : Option String)
        (q : Question), choiceQuestion text opts ac img = some q →
          (∀ i : Nat, i ∈ q.correct_indices ↔ ac.data[i]? = some '2')
          ∧ (q.type = "single" ↔ (choiceCorrect ac).length = 1)
          ∧ (q.type = "multiple" ↔ (choiceCorrect ac).length ≠ 1))
    ∧ (∀ (text : String) (opts : List String) (ac : String) (img : Option String),
        choiceQuestion text opts ac img = none ↔ (opts = [] ∨ choiceCorrect ac = []))
    ∧ (∀ (images : List (String × String)) (ns : List XElem) (n : XElem),
        decodeNode images n = Except.ok none →
          decodeNodes images (n :: ns) = decodeNodes images ns)
    ∧ (choiceQuestion "capital" ["Paris", "London", "Rome"] "211" none =
        some (mkQuestion "capital" "single" ["Paris", "London", "Rome"] [0] none)) := by
  refine ⟨?_, ?_, ?_, by decide⟩
  · intro text opts ac img q h
    simp only [choiceQuestion] at h
    split at h
    · injection h with h
      subst h
      refine ⟨fun i => mem_choiceCorrect ac i, ?_, ?_⟩ <;>
        by_cases hl : (choiceCorrect ac).length = 1 <;>
        simp [mkQuestion, hl]
    · exact absurd h (by simp)
  · intro text opts ac img
    simp only [choiceQuestion]
    split
    next hc => simp [hc.1, hc.2]
    next hc =>
      simp only [true_iff, eq_self_iff_true]
      tauto
  · intro images ns n h
    have hstep : decodeNodes images (n :: ns)
        = Except.bind (decodeNode images n) (fun q? =>
            Except.bind (decodeNodes images ns) (fun rest =>
              match q? with
              | some q => Except.ok (q :: rest)
              | none => Except.ok rest)) := rfl
    rw [hstep, h]
    cases hd : decodeNodes images ns <;> rfl

/-- Witness for C2: index `0` of `"211"` is flagged in the decoded Paris
question, and an empty option list yields no question. -/
theorem claim_c2_witness :
    (0 ∈ (mkQuestion "capital" "single" ["Paris", "London", "Rome"] [0] none).correct_indices
      ↔ ("211" : String).data[0]? = some '2')
    ∧ choiceQuestion "x" [] "211" none = none :=
  ⟨(claim_c2_choice_decode.1 "capital" ["Paris", "London", "Rome"] "211" none
      (mkQuestion "capital" "single" ["Paris", "London", "Rome"] [0] none) (by decide)).1 0,
   (claim_c2_choice_decode.2.1 "x" [] "211" none).mpr (Or.inl rfl)⟩

/-- In a snapshot taken from questions with pairwise-distinct texts, the
resume dict maps each question's text to exactly its own saved entry. -/
theorem filter_to_dict_eq (l : List Question) (q : Question)
    (hnd : (l.map (fun x => x.text)).Nodup) (hq : q ∈ l) :
    (l.map to_dict).filter (fun d => d.text == q.text) = [to_dict q] := by
  induction l with
  | nil => cases hq
  | cons a tl ih =>
    rw [List.map_cons, List.nodup_cons] at hnd
    rw [List.map_cons, List.filter_cons]
    rcases List.mem_cons.mp hq with rfl | hmem
    · rw [if_pos (by simp [to_dict])]
      have hnil : (tl.map to_dict).filter (fun d => d.text == q.text) = [] := by
        rw [List.filter_eq_nil_iff]
        intro d hd
        rcases List.mem_map.mp hd with ⟨b, hb, rfl⟩
        simp only [to_dict, beq_iff_eq]
        intro he
        exact hnd.1 (he ▸ List.mem_map_of_mem (fun x => x.text) hb)
      rw [hnil]
    · have hneq : ¬ (a.text = q.text) := by
        intro he
        exact hnd.1 (he ▸ List.mem_map_of_mem (fun x => x.text) hmem)
      rw [if_neg (by simpa [to_dict] using hneq)]
      exact ih hnd.2 hmem

/-- Claim C5 (amended): provided the bank's question texts are pairwise
distinct, taking a snapshot and resuming it onto a freshly decoded instance of
the same bank reproduces the test exactly — every question regains its
AnswerState and the cursor is restored. With duplicated texts the snapshot
dict is last-wins and the round trip fails (see the counterexample). -/
theorem claim_c5_amended_roundtrip (t : Test)
    (hnd : (t.questions.map (fun q => q.text)).Nodup) :
    applyProgress (freshTest t) (save_progress t) = t := by
  obtain ⟨qs, idx, ttl⟩ := t
  have hq : ((qs.map freshQuestion).map fun q =>
      match dictGetLast (qs.map to_dict) q.text with
      | some d => from_dict q d
      | none => q) = qs := by
    rw [List.map_map]
    have h : ∀ q ∈ qs, ((fun q : Question =>
        match dictGetLast (qs.map to_dict) q.text with
        | some d => from_dict q d
        | none => q) ∘ freshQuestion) q = id q := by
      intro q hqmem
      have hl : dictGetLast (qs.map to_dict) (freshQuestion q).text = some (to_dict q) := by
        show dictGetLast (qs.map to_dict) q.text = some (to_dict q)
        unfold dictGetLast
        rw [filter_to_dict_eq qs q hnd hqmem]
        rfl
      show (match dictGetLast (qs.map to_dict) (freshQuestion q).text with
        | some d => from_dict (freshQuestion q) d
        | none => freshQuestion q) = id q
      rw [hl]
      cases q
      rfl
    rw [List.map_congr_left h, List.map_id]
  show Test.mk ((qs.map freshQuestion).map fun q =>
      match dictGetLast (qs.map to_dict) q.text with
      | some d => from_dict q d
      | none => q) idx ttl = Test.mk qs idx ttl
  rw [hq]

/-- First of two questions sharing the text `"T"`, answered correctly. -/
def qDupA : Question :=
  { text := "T", type := "single", options := ["a", "b"], correct_indices := [0],
    image_data := none, user_answer_indices := [0], user_input := [0],
    is_answered := true, is_correct := some true }

/-- Second question with the same text `"T"`, answered incorrectly. -/
def qDupB : Question :=
  { qDupA with user_answer_indices := [1], user_input := [1], is_correct := some false }

/-- A bank with two questions of identical text and different answer states. -/
def tDup : Test :=
  { questions := [qDupA, qDupB], current_question_index := 0, title := "Practice Test" }

/-- Claim C5 counterexample: on a bank with two identically-texted questions,
the save/resume round trip does NOT reproduce the AnswerStates — the snapshot
dict is last-wins, so both questions come back with the second one's verdict
and the first question's state is lost. -/
theorem claim_c5_counterexample :
    applyProgress (freshTest tDup) (save_progress tDup) ≠ tDup
    ∧ (applyProgress (freshTest tDup) (save_progress tDup)).questions.map
        (fun q => q.is_correct) = [some false, some false]
    ∧ tDup.questions.map (fun q => q.is_correct) = [some true, some false] := by
  exact ⟨by decide, by decide, by decide⟩

/-- A bank with two distinct-texted questions in a mid-session state. -/
def tTwo : Test :=
  { questions := [qAnswered, { qAnswered with text := "Q2", is_correct := some false }],
    current_question_index := 1, title := "Practice Test" }

/-- Witness for the amended C5: the round trip is the identity on a concrete
two-question test with distinct texts. -/
theorem claim_c5_witness :
    applyProgress (freshTest tTwo) (save_progress tTwo) = tTwo :=
  claim_c5_amended_roundtrip tTwo (by decide)

/-- `textwrap.wrap(s, 2)` yields `⌈len / 2⌉` groups. -/
theorem chunk2_length : ∀ l : List Char, (chunk2 l).length = (l.length + 1) / 2
  | [] => rfl
  | [_] => by simp [chunk2]
  | _ :: _ :: rest => by
      simp only [chunk2, List.length_cons, chunk2_length rest]
      omega

/-- Claim C1: for a type-code `"6"` node with `N` decoded options and an
answer string of `N` 2-character groups, each group decodes to a 1-based
target position (`"00"` becoming `N`, the last position), and the correct
permutation is exactly the option indices sorted by assigned position with
original-index order breaking ties: the result is a permutation of
`range N` whose `(position, index)` pairs are sorted under the lexicographic
`pairLe`; concretely `["A","B","C"]` with `"020100"` decodes to `[1, 0, 2]`. -/
theorem claim_c1_ordering_decode (N : Nat) (answer_code : String)
    (hlen : answer_code.data.length = 2 * N) :
    (∀ i : Nat, (orderingPositions N answer_code).get? i =
        ((chunk2 answer_code.data).get? i).map (fun g => if g = "00" then N else pyInt g))
    ∧ (orderingCorrect N (orderingPositions N answer_code)).Perm (List.range N)
    ∧ List.Sorted pairLe
        ((orderingCorrect N (orderingPositions N answer_code)).map
          (fun i => ((orderingPositions N answer_code).getD i 0, i)))
    ∧ (orderingQuestion "q" ["A", "B", "C"] "020100" none).map
        (fun q => q.correct_indices) = some [1, 0, 2] := by
  set ps := orderingPositions N answer_code with hps
  have hlenps : ps.length = N := by
    rw [hps]
    unfold orderingPositions
    rw [List.length_map, chunk2_length, hlen]
    omega
  have hfil : ps.enum.filter (fun p => decide (p.1 < N)) = ps.enum := by
    rw [List.filter_eq_self]
    rintro ⟨i, x⟩ hmem
    have hx := List.mk_mem_enum_iff_getElem?.mp hmem
    obtain ⟨hi, _⟩ := List.getElem?_eq_some_iff.mp hx
    simpa using (hlenps ▸ hi)
  set pairs := (ps.enum.filter (fun p => decide (p.1 < N))).map (fun p => (p.2, p.1))
    with hpairsdef
  have hpairs : pairs = ps.enum.map (fun p => (p.2, p.1)) := by rw [hpairsdef, hfil]
  have hsnd : pairs.map (fun p : Nat × Nat => p.2) = List.range N := by
    rw [hpairs, List.map_map]
    have hcomp : ((fun p : Nat × Nat => p.2) ∘ (fun p : Nat × Nat => (p.2, p.1)))
        = (Prod.fst : Nat × Nat → Nat) := rfl
    rw [hcomp, List.enum_map_fst, hlenps]
  have hmemp : ∀ p ∈ pairs, p.1 = ps.getD p.2 0 := by
    rw [hpairs]
    rintro p hp
    rcases List.mem_map.mp hp with ⟨⟨i, x⟩, hmem, rfl⟩
    have hx := List.mk_mem_enum_iff_getElem?.mp hmem
    show x = ps.getD i 0
    rw [List.getD_eq_getD_get?, List.get?_eq_getElem?, hx]
    rfl
  have hoc : orderingCorrect N ps
      = (List.insertionSort pairLe pairs).map (fun p : Nat × Nat => p.2) := rfl
  have hperm1 : (List.insertionSort pairLe pairs).Perm pairs :=
    List.perm_insertionSort pairLe pairs
  have hsorted : List.Sorted pairLe (List.insertionSort pairLe pairs) :=
    List.sorted_insertionSort pairLe pairs
  refine ⟨?_, ?_, ?_, by decide⟩
  · intro i
    rw [hps]
    unfold orderingPositions
    exact List.get?_map _ _ _
  · rw [hoc, ← hsnd]
    exact hperm1.map _
  · rw [hoc, List.map_map]
    have hcongr : ∀ p ∈ List.insertionSort pairLe pairs,
        ((fun i => (ps.getD i 0, i)) ∘ (fun p : Nat × Nat => p.2)) p = id p := by
      intro p hp
      have hpmem : p ∈ pairs := (hperm1.mem_iff).mp hp
      have hfst := hmemp p hpmem
      show (ps.getD p.2 0, p.2) = p
      rw [← hfst]
    rw [List.map_congr_left hcongr, List.map_id]
    exact hsorted

/-- Witness for C1 at `N = 3`, answer string `"020100"`: the decoded
permutation is a permutation of `range 3` sorted by assigned position. -/
theorem claim_c1_witness :
    (orderingCorrect 3 (orderingPositions 3 "020100")).Perm (List.range 3)
    ∧ List.Sorted pairLe ((orderingCorrect 3 (orderingPositions 3 "020100")).map
        (fun i => ((orderingPositions 3 "020100").getD i 0, i))) :=
  ⟨(claim_c1_ordering_decode 3 "020100" (by decide)).2.1,
   (claim_c1_ordering_decode 3 "020100" (by decide)).2.2.1⟩

/-- Claim C6 (code bug): the namespace-stripping loop rewrites a tree that is
immediately discarded — `root` is re-parsed from the raw string — so all
structural matching runs on unstripped tags. A fully namespace-qualified bank
therefore crashes with `AttributeError` at the title lookup instead of
decoding to the same Test as its unprefixed form, which decodes fine. -/
theorem claim_c6_namespace_strip_dead :
    loadFromTree exTreeNs = Except.error "AttributeError"
    ∧ loadFromTree (stripNsE exTreeNs) =
        Except.ok { questions := [mkQuestion "Q1" "single" ["Paris", "London"] [0] none],
                    current_question_index := 0, title := "My Title" } :=
  ⟨rfl, rfl⟩

/-- Claim C9 (code bug): when the title node at `.//p/t` is absent, line 79
dereferences `None` and the load dies with an uncaught `AttributeError`
instead of defaulting the title; only the present-but-empty case falls back to
the `"Practice Test"` placeholder. -/
theorem claim_c9_title_absent_crashes :
    loadFromTree exTreeNoTitle = Except.error "AttributeError"
    ∧ loadFromTree exTreeEmptyTitle =
        Except.ok { questions := [mkQuestion "Q1" "single" ["Paris", "London"] [0] none],
                    current_question_index := 0, title := "Practice Test" } :=
  ⟨rfl, rfl⟩

end LocalDaypo
